import Mathlib

/-!
# TinySSG: a verification development

A shallow embedding of the core of the TinySSG static-site generator
(`tinyssg/__init__.py`) together with theorems about its behaviour.

Modelling conventions:
* Python's dynamically typed values are modelled by the inductive `PyVal`;
  Python `dict`s are association lists in insertion order (construction in the
  source never produces duplicate keys), and item assignment updates a present
  key in place or appends a fresh one, as in CPython.
* Fallible Python code returns `Except PyErr`; raising is `.error`.
* `re.sub` with the one pattern family the source uses
  (`\x7b\x7b` optional-space key optional-space `\x7d\x7d`) is modelled
  character-for-character, including CPython's processing of backslash escapes
  and `\g<0>` group references in the replacement template.
* Machine-independent data only: strings are `List Char` sequences (Lean
  `String.data`), numbers are `Int`/`Nat`.
-/

/-! ## Generic character/list helpers (Python `str` primitives) -/

/-- Python whitespace (`str.strip`, regex `\s`) restricted to the ASCII
whitespace characters: space, tab, newline, carriage return, form feed,
vertical tab. -/
def isPySpace (c : Char) : Bool :=
  c = ' ' || c = '\t' || c = '\n' || c = '\x0d' || c = '\x0c' || c = '\x0b'

/-- `listIsPrefix p s` decides whether `p` is a prefix of `s`. -/
def listIsPrefix : List Char → List Char → Bool
  | [], _ => true
  | _ :: _, [] => false
  | a :: as, b :: bs => a = b && listIsPrefix as bs

/-- Python `pre in s` / `s.find(pre) >= 0`: substring containment. -/
def listContainsSub (sub : List Char) : List Char → Bool
  | [] => listIsPrefix sub []
  | c :: rest => listIsPrefix sub (c :: rest) || listContainsSub sub rest

/-- Python `s.startswith(pre)`. -/
def pyStartsWith (s pre : String) : Bool := listIsPrefix pre.data s.data

/-- Python `s.endswith(suf)`. -/
def pyEndsWith (s suf : String) : Bool := listIsPrefix suf.data.reverse s.data.reverse

/-- Python `sub in s` on strings. -/
def pyContains (s sub : String) : Bool := listContainsSub sub.data s.data

/-- Python slicing `s[n:]` (character based). -/
def pyDrop (s : String) (n : Nat) : String := ⟨s.data.drop n⟩

/-- Python slicing `s[:-n]` for `0 < n ≤ len(s)` (character based). -/
def pyDropRight (s : String) (n : Nat) : String := ⟨s.data.take (s.data.length - n)⟩

/-- Python `len(s)` (character based). -/
def pyLen (s : String) : Nat := s.data.length

/-- Python `s.strip()`: remove leading and trailing whitespace. -/
def pyStrip (s : String) : String :=
  ⟨((s.data.dropWhile isPySpace).reverse.dropWhile isPySpace).reverse⟩

/-- Python `s.split('/')`: split on each slash, keeping empty pieces. -/
def splitSlash : List Char → List (List Char)
  | [] => [[]]
  | c :: rest =>
    if c = '/' then [] :: splitSlash rest
    else
      match splitSlash rest with
      | g :: gs => (c :: g) :: gs
      | [] => [[c]]

/-- `s.split('/')` on strings. -/
def pySplitSlash (s : String) : List String := (splitSlash s.data).map String.mk

/-! ## Python values -/

/-- A Python value, as far as the TinySSG core manipulates them: strings,
integers, `None`, lists, tuples, and string-keyed dictionaries (the data
records of the generator are flat string-keyed mappings). -/
inductive PyVal where
  | vstr (s : String)
  | vint (n : Int)
  | vnone
  | vlist (l : List PyVal)
  | vtuple (l : List PyVal)
  | vdict (d : List (String × PyVal))

mutual

/-- Python `==` on `PyVal` (used for dictionary key identity). `'1' == 1` is
`False` in Python, and distinct constructors never compare equal here either.
Python dictionary keys must be hashable, so the list/dict cases can only be
exercised by programs that would already have raised `TypeError`; they are
compared structurally. -/
def pyValEq : PyVal → PyVal → Bool
  | .vstr a, .vstr b => a == b
  | .vint a, .vint b => a == b
  | .vnone, .vnone => true
  | .vlist a, .vlist b => pyValListEq a b
  | .vtuple a, .vtuple b => pyValListEq a b
  | .vdict a, .vdict b => pyValDictEq a b
  | _, _ => false

/-- Elementwise Python `==` on lists. -/
def pyValListEq : List PyVal → List PyVal → Bool
  | [], [] => true
  | a :: as, b :: bs => pyValEq a b && pyValListEq as bs
  | _, _ => false

/-- Entrywise Python `==` on string-keyed dictionaries. -/
def pyValDictEq : List (String × PyVal) → List (String × PyVal) → Bool
  | [], [] => true
  | (ka, va) :: as, (kb, vb) :: bs => ka == kb && pyValEq va vb && pyValDictEq as bs
  | _, _ => false

end

/-- Escape one character for Python `repr` of a string (backslash, quote and
the common control characters; other characters print as themselves). -/
def pyReprEsc (quote : Char) (c : Char) : List Char :=
  if c = '\\' then ['\\', '\\']
  else if c = quote then ['\\', quote]
  else if c = '\n' then ['\\', 'n']
  else if c = '\t' then ['\\', 't']
  else if c = '\x0d' then ['\\', 'r']
  else c :: []

/-- Python `repr` of a string: single quotes unless the string contains a
single quote and no double quote. -/
def pyReprStr (s : String) : String :=
  let quote : Char := if s.data.contains '\x27' && !(s.data.contains '"') then '"' else '\x27'
  ⟨quote :: (s.data.flatMap (pyReprEsc quote)) ++ [quote]⟩

/-- Comma-space join, as Python `', '.join`. -/
def joinCommaSep : List String → String
  | [] => ""
  | [x] => x
  | x :: xs => x ++ ", " ++ joinCommaSep xs

mutual

/-- Python `repr(value)` for the modelled values. -/
def reprPy : PyVal → String
  | .vstr s => pyReprStr s
  | .vint n => toString n
  | .vnone => "None"
  | .vlist l => "[" ++ joinCommaSep (reprPyList l) ++ "]"
  | .vtuple l =>
    match reprPyList l with
    | [x] => "(" ++ x ++ ",)"
    | xs => "(" ++ joinCommaSep xs ++ ")"
  | .vdict d => "\x7b" ++ joinCommaSep (reprPyDict d) ++ "\x7d"

/-- `repr` of each list element. -/
def reprPyList : List PyVal → List String
  | [] => []
  | v :: vs => reprPy v :: reprPyList vs

/-- `repr` of each dictionary entry, as `'key': value`. -/
def reprPyDict : List (String × PyVal) → List String
  | [] => []
  | (k, v) :: rest => (pyReprStr k ++ ": " ++ reprPy v) :: reprPyDict rest

end

/-- Python `str(value)`, as applied by `render_variables` to the values of a
data record: strings pass through unchanged, other values use their `repr`
form. -/
def strPy : PyVal → String
  | .vstr s => s
  | v => reprPy v

/-! ## Python exceptions -/

/-- The exceptions the embedded code can raise. `tinySSG` is the library's own
`TinySSGException`; the others are built-in Python exceptions that propagate
unchanged. -/
inductive PyErr where
  | tinySSG (msg : String)
  | keyError (key : PyVal)
  | valueError (msg : String)
  | typeError (msg : String)
  | reError (msg : String)
  | unboundLocal (name : String)

/-! ## `re.sub` for the placeholder pattern of `render_variables`

`TinySSGUtility.render_variables` calls, for each record key `key`,
`re.sub(start_delimiter + re.escape(key) + end_delimiter, str(value), result)`
with the default delimiters `\x7b\x7b\s?` and `\s?\x7d\x7d`.  The pattern is
therefore two open braces, at most one whitespace character, the literal key,
at most one whitespace character, and two close braces.  The replacement string
is a CPython replacement template: backslash escapes are expanded, `\g<0>`
inserts the whole match, numbered group references are invalid (the pattern has
no groups), and unknown escapes of ASCII letters are errors. -/

/-- One token of a parsed replacement template: a literal character or a
reference to group 0 (the whole match). -/
inductive ReplTok where
  | lit (c : Char)
  | group0

/-- Parse a CPython `re` replacement template for a pattern with no capture
groups (`sre_parse.parse_template`): known escapes become characters, `\g<0>`
references the whole match, `\0` (plus up to two octal digits) is an octal
escape, other digit references and unknown ASCII-letter escapes are errors
(`none`), and unknown non-letter escapes keep the backslash. -/
def parseTemplate : List Char → Option (List ReplTok)
  | [] => some []
  | '\\' :: rest =>
    match rest with
    | [] => none
    | c :: r =>
      if c = '\\' then (ReplTok.lit '\\' :: ·) <$> parseTemplate r
      else if c = 'n' then (ReplTok.lit '\n' :: ·) <$> parseTemplate r
      else if c = 't' then (ReplTok.lit '\t' :: ·) <$> parseTemplate r
      else if c = 'r' then (ReplTok.lit '\x0d' :: ·) <$> parseTemplate r
      else if c = 'a' then (ReplTok.lit '\x07' :: ·) <$> parseTemplate r
      else if c = 'b' then (ReplTok.lit '\x08' :: ·) <$> parseTemplate r
      else if c = 'f' then (ReplTok.lit '\x0c' :: ·) <$> parseTemplate r
      else if c = 'v' then (ReplTok.lit '\x0b' :: ·) <$> parseTemplate r
      else if c = 'g' then
        match r with
        | '<' :: '0' :: '>' :: r2 => (ReplTok.group0 :: ·) <$> parseTemplate r2
        | _ => none
      else if c = '0' then
        match r with
        | d1 :: d2 :: r2 =>
          if '0' ≤ d1 && d1 ≤ '7' && '0' ≤ d2 && d2 ≤ '7' then
            (ReplTok.lit (Char.ofNat ((d1.toNat - 48) * 8 + (d2.toNat - 48))) :: ·) <$>
              parseTemplate r2
          else if '0' ≤ d1 && d1 ≤ '7' then
            (ReplTok.lit (Char.ofNat (d1.toNat - 48)) :: ·) <$> parseTemplate (d2 :: r2)
          else (ReplTok.lit '\x00' :: ·) <$> parseTemplate (d1 :: d2 :: r2)
        | [d1] =>
          if '0' ≤ d1 && d1 ≤ '7' then
            (ReplTok.lit (Char.ofNat (d1.toNat - 48)) :: ·) <$> parseTemplate []
          else (ReplTok.lit '\x00' :: ·) <$> parseTemplate [d1]
        | [] => some [ReplTok.lit '\x00']
      else if c.isDigit then none
      else if c.isAlpha then none
      else (fun ts => ReplTok.lit '\\' :: ReplTok.lit c :: ts) <$> parseTemplate r
  | c :: rest => (ReplTok.lit c :: ·) <$> parseTemplate rest

/-- Expand a parsed replacement template against the text of the match. -/
def applyTemplate (matched : List Char) : List ReplTok → List Char
  | [] => []
  | .lit c :: ts => c :: applyTemplate matched ts
  | .group0 :: ts => matched ++ applyTemplate matched ts

/-- `\x7d\x7d` — the closing double brace of the placeholder pattern. -/
def matchClose : List Char → Option (List Char)
  | '}' :: '}' :: r => some r
  | _ => none

/-- `\s?\x7d\x7d` with the greedy backtracking order of the regex engine:
first try to consume one whitespace character, then fall back. -/
def matchTail (s : List Char) : Option (List Char) :=
  (match s with
   | c :: r => if isPySpace c then matchClose r else none
   | [] => none) <|> matchClose s

/-- Strip an exact literal prefix (the `re.escape`d key). -/
def stripLit : List Char → List Char → Option (List Char)
  | [], s => some s
  | _ :: _, [] => none
  | p :: ps, c :: cs => if p = c then stripLit ps cs else none

/-- Match the placeholder pattern
`\x7b\x7b\s?` key `\s?\x7d\x7d` at the head of `s`, returning the remainder
after the match.  The two optional whitespace characters are tried greedily
with backtracking, as the regex engine does. -/
def matchPH (key : List Char) (s : List Char) : Option (List Char) :=
  match s with
  | '{' :: '{' :: rest =>
    (match rest with
     | c :: r => if isPySpace c then stripLit key r >>= matchTail else none
     | [] => none) <|> (stripLit key rest >>= matchTail)
  | _ => none

/-- The scan of `re.sub`: walk the subject left to right; at each position
replace a placeholder match (expanding the template against the matched text)
and continue after it, otherwise keep one character.  `fuel` bounds the
recursion; every step consumes at least one character, so `fuel = length`
is always enough. -/
def subFuel (key : List Char) (toks : List ReplTok) : Nat → List Char → List Char
  | 0, s => s
  | _ + 1, [] => []
  | fuel + 1, c :: rest =>
    match matchPH key (c :: rest) with
    | some rem =>
      applyTemplate ((c :: rest).take ((c :: rest).length - rem.length)) toks ++
        subFuel key toks fuel rem
    | none => c :: subFuel key toks fuel rest

/-- One `re.sub(r'\x7b\x7b\s?' + re.escape(key) + r'\s?\x7d\x7d', repl, s)`
call.  Parsing the replacement template can raise `re.error`. -/
def pySubKey (key repl s : String) : Except PyErr String :=
  match parseTemplate repl.data with
  | none => .error (.reError ("bad escape or invalid group reference in " ++ repl))
  | some toks => .ok ⟨subFuel key.data toks s.data.length s.data⟩

/-- `TinySSGUtility.render_variables` with the default delimiters: fold the
substitution over the record entries in insertion order, each key's pattern
matched against the current, possibly already-substituted, string. -/
def render_variables (src : String) (data : List (String × PyVal)) : Except PyErr String :=
  data.foldlM (fun result kv => pySubKey kv.1 (strPy kv.2) result) src

/-- Does `s` contain a match of the placeholder pattern for `key` anywhere? -/
def hasPHAux (key : List Char) : List Char → Bool
  | [] => false
  | c :: rest => (matchPH key (c :: rest)).isSome || hasPHAux key rest

/-- `hasPlaceholder key s`: some occurrence of `\x7b\x7b\s?key\s?\x7d\x7d`
occurs in `s`. -/
def hasPlaceholder (key s : String) : Bool := hasPHAux key.data s.data

/-- Modelled from the spec: the specification describes substitution as
replacing each placeholder "with the string form of that key's value",
literally — the value is inserted verbatim, never interpreted.  This is the
same scan as `render_variables` but with a literal replacement. -/
def render_variables_literal (src : String) (data : List (String × PyVal)) : String :=
  data.foldl
    (fun result kv =>
      ⟨subFuel kv.1.data ((strPy kv.2).data.map ReplTok.lit) result.data.length result.data⟩)
    src

/-! ## `TinySSGGenerator.create_content`

A page handle (`TinySSGPage` instance).  The default `render` method is
`TinySSGUtility.render_variables` and is not overridden by any code in the
repository, so it is fixed here; `query`, `template` and `translate` are the
overridable methods, each of which may raise (modelled as `Except`).  The
class name is carried for statements about error messages. -/

structure Page where
  name : String
  query : Except PyErr PyVal
  template : Except PyErr String
  translate : String → Except PyErr PyVal

/-- The default `TinySSGPage.translate`: the identity pass-through. -/
def defaultTranslate (s : String) : Except PyErr PyVal := .ok (.vstr s)

/-- The message of the `TinySSGException` raised for an invalid `query`
return shape. -/
def queryShapeMsg : String :=
  "The query method must return a dictionary or a list of dictionaries."

/-- The result of `create_content`: a bare HTML string in single-page mode,
otherwise a key-to-string mapping (keys are whatever `record[slugkey]`
produced). -/
inductive CCRes where
  | single (s : String)
  | multi (m : List (PyVal × String))

/-- Python dict item assignment `result[key] = value`: update a present key in
place, append a fresh one. -/
def dictInsert (m : List (PyVal × String)) (key : PyVal) (v : String) :
    List (PyVal × String) :=
  match m with
  | [] => [(key, v)]
  | (k, w) :: rest =>
    if pyValEq k key then (k, v) :: rest else (k, w) :: dictInsert rest key v

/-- Python dict lookup `m[key]` as an `Option`. -/
def dictGet (m : List (PyVal × String)) (key : PyVal) : Option String :=
  match m with
  | [] => none
  | (k, w) :: rest => if pyValEq k key then some w else dictGet rest key

/-- Association-list lookup on a record (Python `slugkey in d` / `d[slugkey]`;
records never carry duplicate keys). -/
def recordGet (d : List (String × PyVal)) (key : String) : Option PyVal :=
  match d with
  | [] => none
  | (k, v) :: rest => if k == key then some v else recordGet rest key

/-- `fetchdata, slugkey = basefetch if isinstance(basefetch, tuple) else
(basefetch, None)`: a tuple is unpacked (raising `ValueError` unless it has
exactly two elements), anything else is paired with `None`. -/
def unpackFetch (basefetch : PyVal) : Except PyErr (PyVal × PyVal) :=
  match basefetch with
  | .vtuple es =>
    match es with
    | [a, b] => .ok (a, b)
    | _ =>
      if es.length < 2 then
        .error (.valueError ("not enough values to unpack (expected 2, got " ++
          toString es.length ++ ")"))
      else .error (.valueError "too many values to unpack (expected 2)")
  | other => .ok (other, .vnone)

/-- The element check of the list branch: every element of the list returned
by `query` must be a dictionary, otherwise the `TinySSGException` is raised at
the first offender.  On success the records are returned as association
lists. -/
def toDicts : List PyVal → Except PyErr (List (List (String × PyVal)))
  | [] => .ok []
  | .vdict d :: rest => (toDicts rest).map (d :: ·)
  | _ :: _ => .error (.tinySSG queryShapeMsg)

/-- The output-key resolution of the rendering loop (source lines 356-359):
`record[slugkey]` when `slugkey` is a string present in the record, else the
1-based ordinal `str(i + 1)` for the 0-based index `i`. -/
def resolveKey (slugkey : PyVal) (d : List (String × PyVal)) (i : Nat) : PyVal :=
  match slugkey with
  | .vstr sk =>
    match recordGet d sk with
    | some v => v
    | none => .vstr (toString (i + 1))
  | _ => .vstr (toString (i + 1))

/-- The rendering loop of `create_content` (`for i in range(len(baselist))`),
carried out on the records with the 0-based index `i` and the accumulated
result mapping: resolve the output key, fetch the template, render it with the
record, strip and append a newline, translate, and store the result under the
key when it is a non-empty string. -/
def createLoop (page : Page) (slugkey : PyVal) :
    Nat → List (List (String × PyVal)) → List (PyVal × String) →
    Except PyErr (List (PyVal × String))
  | _, [], result => .ok result
  | i, d :: rest, result => do
    let key := resolveKey slugkey d i
    let pagetemp ← page.template
    let rendered ← render_variables pagetemp d
    let basestr := pyStrip rendered ++ "\n"
    let htmlstr ← page.translate basestr
    let result :=
      match htmlstr with
      | .vstr hs => if pyLen hs > 0 then dictInsert result key hs else result
      | _ => result
    createLoop page slugkey (i + 1) rest result

/-- `TinySSGGenerator.create_content`: fetch the query data, classify its
shape (single mapping / list of mappings / 2-tuple with a slug key), render
every record, and in single-page mode unwrap the entry under key `'1'`
(raising `KeyError` when it is absent). -/
def create_content (page : Page) : Except PyErr CCRes := do
  let basefetch ← page.query
  let (fetchdata, slugkey) ← unpackFetch basefetch
  match fetchdata with
  | .vdict d => do
    -- single-record mode: slugkey is forced to None
    let result ← createLoop page .vnone 0 [d] []
    match dictGet result (.vstr "1") with
    | some v => .ok (.single v)
    | none => .error (.keyError (.vstr "1"))
  | .vlist l =>
    if l.length = 0 then .ok (.multi [])
    else do
      let records ← toDicts l
      let result ← createLoop page slugkey 0 records []
      .ok (.multi result)
  | _ => .error (.tinySSG queryShapeMsg)

/-! ## `TinySSGDebug`: the dev server's GET handler

The server state (`TinySSGDebugHTTPServer`) holds the startup options, the
in-memory Content Tree produced by `generate_routes`, and the mutable `reload`
flag; `server.shutdown()` is modelled by a boolean.  A response is what the
handler sends back: `send_ok_response`, `send_no_ok_response` (with its status
and extra headers), or the delegation to `SimpleHTTPRequestHandler.do_GET`
after rewriting `handler.path` (the only disk-backed branch). -/

/-- The nested route/content dictionary the server walks: leaves are the
values `create_content` produced (strings in a correct build), inner nodes are
dictionaries.  Keys are Python values because multi-record slug keys are taken
verbatim from the records. -/
inductive PyTree where
  | leaf (v : PyVal)
  | node (es : List (PyVal × PyTree))

/-- The startup options the handler reads. -/
structure SrvArgs where
  output : String
  static : String
  noreload : Bool
  nolog : Bool

/-- The dev-server state. -/
structure Server where
  args : SrvArgs
  route : PyTree
  reload : Bool
  shutdown : Bool

/-- What the handler sends for one GET request. -/
inductive Resp where
  | ok (contentType : String) (body : String)
  | noOk (status : Nat) (content : String) (headers : List (String × String))
  | staticServe (rewrittenPath : String)

/-- `json.dumps({'reload': flag})` exactly as CPython prints it. -/
def pyJsonReloadBody (b : Bool) : String :=
  "\x7b\"reload\": " ++ (if b then "true" else "false") ++ "\x7d"

/-- The watchdog reload-poller script, verbatim from
`TinySSGDebug.watchdog_script`. -/
def watchdog_script : String :=
  "\n    <script type=\"module\">\n        let __reload_check = () => \x7b\n            fetch(\x27/change\x27).then(response => response.json()).then(data => \x7b\n                if (data.reload) \x7b\n                    console.log(\x27Change detected. Reloading...\x27);\n                    location.reload();\n                \x7d else \x7b\n                    setTimeout(__reload_check, 1000);\n                \x7d\n            \x7d);\n        \x7d;\n        setTimeout(__reload_check, 1000);\n    </script>"

/-- `re.sub(r'(\s*</head>)', watchdog_script + '\n' + group1, content)`: at
each position, a match is a (possibly empty) maximal whitespace run followed
by `</head>`; the whole match is group 1 and is re-emitted after the script
and a newline.  Scanning is left to right, non-overlapping; every match
consumes at least the seven characters of `</head>`, so `fuel = length`
suffices. -/
def injectAux (script : List Char) : Nat → List Char → List Char
  | 0, s => s
  | _ + 1, [] => []
  | fuel + 1, c :: rest =>
    let s := c :: rest
    let k := (s.takeWhile isPySpace).length
    if listIsPrefix "</head>".data (s.drop k) then
      script ++ '\n' :: (s.take k ++ "</head>".data) ++
        injectAux script fuel (s.drop (k + 7))
    else c :: injectAux script fuel rest

/-- The watchdog-script injection applied to a served page body. -/
def injectWatchdog (content : String) : String :=
  ⟨injectAux watchdog_script.data content.data.length content.data⟩

/-- `re.sub` with a plain literal pattern and a replacement without escapes,
as used for the static-path rewrite `re.sub('/' + re.escape(output), '',
path)`: every non-overlapping occurrence of the literal pattern anywhere in
the subject is replaced.  (The pattern `'/' + output` is never empty.) -/
def subLitAux (pat repl : List Char) : Nat → List Char → List Char
  | 0, s => s
  | _ + 1, [] => []
  | fuel + 1, c :: rest =>
    if listIsPrefix pat (c :: rest) then
      repl ++ subLitAux pat repl fuel ((c :: rest).drop pat.length)
    else c :: subLitAux pat repl fuel rest

/-- `re.sub(lit, repl, s)` for a literal pattern. -/
def pySubLit (pat repl s : String) : String :=
  ⟨subLitAux pat.data repl.data s.data.length s.data⟩

/-- `re.sub(r'\.html$', '', s)`: strip one trailing `.html`. -/
def stripHtmlSuffix (s : String) : String :=
  if pyEndsWith s ".html" then pyDropRight s 5 else s

/-- Dictionary lookup by a string segment (`path in current_route` followed by
`current_route[path]`). -/
def lookupRoute (es : List (PyVal × PyTree)) (p : String) : Option PyTree :=
  match es with
  | [] => none
  | (k, t) :: rest => if pyValEq k (.vstr p) then some t else lookupRoute rest p

/-- The route walk of the page branch (`for path in output_path: ...`):
follow each segment through the nested dictionaries; a missing segment or a
non-dictionary intermediate value is the early 404 return, modelled as
`none`. -/
def routeWalk : List String → PyTree → Option PyTree
  | [], t => some t
  | p :: ps, .node es =>
    match lookupRoute es p with
    | some t => routeWalk ps t
    | none => none
  | _ :: _, .leaf _ => none

/-- `TinySSGDebug.httpd_get_handler`, branch for branch.  Returns the response
sent and the server state afterwards. -/
def httpd_get_handler (path : String) (server : Server) : Resp × Server :=
  if path = "/change" then
    (.ok "application/json" (pyJsonReloadBody server.reload),
      { server with reload := false })
  else if path = "/stop" then
    (.ok "text/plain" "Server Stopped.", { server with shutdown := true })
  else if pyStartsWith path ("/" ++ server.args.output ++ "/" ++ server.args.static ++ "/") then
    (.staticServe (pySubLit ("/" ++ server.args.output) "" path), server)
  else if path = "/" ++ server.args.output then
    (.noOk 301 "" [("Location", "/" ++ server.args.output ++ "/")], server)
  else if pyStartsWith path ("/" ++ server.args.output ++ "/") then
    -- every branch of the page walk sends a response and leaves the state alone
    let baselen := pyLen ("/" ++ server.args.output ++ "/")
    let basename0 := stripHtmlSuffix (pyDrop path baselen)
    let basename :=
      if pyEndsWith basename0 "/" || basename0 = "" then basename0 ++ "index" else basename0
    let output_path := pySplitSlash basename
    (match routeWalk output_path server.route with
     | none => .noOk 404 "Not Found" []
     | some (.node _) => .noOk 301 "" [("Location", path ++ "/")]
     | some (.leaf (.vstr content)) =>
       .ok "text/html" (if server.args.noreload then content else injectWatchdog content)
     | some (.leaf _) => .noOk 500 "Internal Server Error" [], server)
  else
    (.noOk 404 "Not Found" [], server)

/-- Serving a sequence of GET requests one after the other (the dev server is
single-threaded and synchronous), threading the server state. -/
def serveList (server : Server) : List String → List Resp
  | [] => []
  | p :: ps =>
    let r := httpd_get_handler p server
    r.1 :: serveList r.2 ps

/-! ## `TinySSGGenerator.search_route`

The route-tree walk.  The filesystem traversal (`os.walk` plus
`os.path.relpath`) is abstracted as an input list of walk entries, each
carrying the absolute root, the relative path from the page directory (`'.'`
at the top, as `os.path.relpath` yields), and the subdirectory and file name
lists.  Dynamic module loading (`importlib` + `inspect.getmembers`, source
lines 245-253) is abstracted as a `loader` oracle from module name and path to
the page classes defined in that file; it may raise, as `exec_module` may.
The interpreter state the walk touches, `sys.dont_write_bytecode`, is the
explicit `SysState`. -/

/-- A discovered Page class: just its `__name__` as far as the route tree is
concerned. -/
structure PageCls where
  name : String

/-- The route tree: leaves are page classes, inner nodes are dictionaries
(also used for the class-name sub-mapping when one file defines several
page classes). -/
inductive RTree where
  | leaf (c : PageCls)
  | node (es : List (String × RTree))

/-- One `os.walk` triple, with the precomputed relative path. -/
structure WalkEntry where
  root : String
  relpath : String
  dirs : List String
  files : List String

/-- The options `search_route` reads. -/
structure GenArgs where
  static : String
  input : String

/-- The interpreter state touched by the walk. -/
structure SysState where
  dont_write_bytecode : Bool

/-- Route-tree dictionary lookup. -/
def lookupTree : List (String × RTree) → String → Option RTree
  | [], _ => none
  | (k, t) :: rest, p => if k == p then some t else lookupTree rest p

/-- Route-tree dictionary item assignment: update a present key in place,
append a fresh one. -/
def dictInsertTree : List (String × RTree) → String → RTree → List (String × RTree)
  | [], key, v => [(key, v)]
  | (k, t) :: rest, key, v =>
    if k == key then (k, v) :: rest else (k, t) :: dictInsertTree rest key v

/-- `TypeError` message for `part not in current_dict` when `current_dict` is
a class, not a dictionary. -/
def typeNotIterableMsg : String := "argument of type \x27type\x27 is not iterable"

/-- `TypeError` message for `current_dict[name] = value` when `current_dict`
is a class, not a dictionary. -/
def typeItemAssignMsg : String := "\x27type\x27 object does not support item assignment"

/-- Helper for `rfindChar`, tracking the index of the list head. -/
def rfindCharAux (c : Char) : List Char → Nat → Option Nat
  | [], _ => none
  | x :: xs, i =>
    match rfindCharAux c xs (i + 1) with
    | some j => some j
    | none => if x = c then some i else none

/-- Index of the last occurrence of a character. -/
def rfindChar (c : Char) (s : List Char) : Option Nat := rfindCharAux c s 0

/-- Python `os.path.splitext(p)[0]` with `/` as separator: cut at the last
dot of the last component, unless everything before that dot in the component
is itself a dot. -/
def splitextBase (p : String) : String :=
  let cs := p.data
  let sepIndex : Int := match rfindChar '/' cs with | some i => (i : Int) | none => -1
  let dotIndex : Int := match rfindChar '.' cs with | some i => (i : Int) | none => -1
  if sepIndex < dotIndex then
    if ((cs.drop (sepIndex + 1).toNat).take (dotIndex - sepIndex - 1).toNat).any (· ≠ '.') then
      ⟨cs.take dotIndex.toNat⟩
    else p
  else p

/-- `os.path.join` for two components with `/` as separator. -/
def pathJoin (a b : String) : String :=
  if pyStartsWith b "/" then b
  else if a = "" || pyEndsWith a "/" then a ++ b
  else a ++ "/" ++ b

/-- `re.sub(r'^\./', '', s)`: strip one leading `./`. -/
def stripDotSlash (s : String) : String :=
  if pyStartsWith s "./" then pyDrop s 2 else s

/-- `TinySSGGenerator.check_input_file` (with `os.sep = '/'`, so the
`replace(os.sep, '/')` calls are the identity). -/
def check_input_file (relative_path filename input_file : String) : Bool :=
  pathJoin relative_path (splitextBase filename) == splitextBase (stripDotSlash input_file)

/-- First-occurrence deduplication; stands in for the Python `set` of file
base names (CPython set iteration order is unspecified, so the order of a
reported conflict list is a modelling choice; no theorem depends on it). -/
def dedupFirst : List String → List String
  | [] => []
  | x :: xs => x :: (dedupFirst xs).filter (· ≠ x)

/-- `TinySSGGenerator.check_duplicate_name`: base names of files that also
name a subdirectory. -/
def check_duplicate_name (files dirs : List String) : List String :=
  (dedupFirst (files.map splitextBase)).filter (dirs.contains ·)

/-- `TinySSGGenerator.extract_page_classes`.  For a file that is not a
non-`__init__` Python source, the source function falls through to
`return page_classes, module_name, module_path` with `module_name` never
assigned, an `UnboundLocalError`. -/
def extract_page_classes (loader : String → String → Except PyErr (List PageCls))
    (root filename : String) : Except PyErr (List PageCls × String × String) :=
  if pyEndsWith filename ".py" && filename != "__init__.py" then do
    let module_name := splitextBase filename
    let module_path := pathJoin root filename
    let classes ← loader module_name module_path
    .ok (classes, module_name, module_path)
  else .error (.unboundLocal "module_name")

/-- The body of the `for filename in files` loop: input filter, static-name
conflict, class extraction, and storing the result under the module name in
the current dictionary (a `TypeError` if the walk descended into a class). -/
def processFile (loader : String → String → Except PyErr (List PageCls))
    (args : GenArgs) (root relpath : String)
    (st : RTree × Nat) (filename : String) : Except PyErr (RTree × Nat) :=
  if pyLen args.input > 0 && !check_input_file relpath filename args.input then
    .ok st
  else if relpath = "" && filename = args.static ++ ".py" then
    .error (.tinySSG ("Static file directory name conflict: " ++ pathJoin root filename))
  else do
    let (classes, module_name, _module_path) ← extract_page_classes loader root filename
    let counter := st.2 + classes.length
    match classes with
    | [] => .ok (st.1, counter)   -- "warning: No Page class found" is logged; the file is skipped
    | [c] =>
      match st.1 with
      | .node es => .ok (.node (dictInsertTree es module_name (.leaf c)), counter)
      | .leaf _ => .error (.typeError typeItemAssignMsg)
    | cs =>
      match st.1 with
      | .node es =>
        .ok (.node (dictInsertTree es module_name
          (.node (cs.foldl (fun acc c => dictInsertTree acc c.name (.leaf c)) []))), counter)
      | .leaf _ => .error (.typeError typeItemAssignMsg)

/-- The descent `for part in relative_path.split(os.sep)`, creating missing
intermediate dictionaries, then the update at the target.  Descending into a
class raises the membership-test `TypeError`. -/
def navUpdate (upd : RTree → Except PyErr (RTree × Nat)) :
    RTree → List String → Except PyErr (RTree × Nat)
  | t, [] => upd t
  | .node es, p :: ps =>
    match lookupTree es p with
    | some child => do
      let r ← navUpdate upd child ps
      .ok (.node (dictInsertTree es p r.1), r.2)
    | none => do
      let r ← navUpdate upd (.node []) ps
      .ok (.node (es ++ [(p, r.1)]), r.2)
  | .leaf _, _ :: _ => .error (.typeError typeNotIterableMsg)

/-- The body of the `for root, dirs, files in os.walk(...)` loop for one walk
entry, threading the routes tree and the page counter. -/
def processEntry (loader : String → String → Except PyErr (List PageCls))
    (pagesPath : String) (args : GenArgs)
    (st : RTree × Nat) (e : WalkEntry) : Except PyErr (RTree × Nat) :=
  let conflicts := check_duplicate_name e.files e.dirs
  if conflicts.length > 0 then
    .error (.tinySSG ("The following names conflict between files and directories: " ++
      joinCommaSep conflicts ++ " in " ++ e.relpath))
  else
    let relative_path := if e.relpath = "." then "" else e.relpath
    if relative_path = args.static then
      .error (.tinySSG ("Static file directory name conflict: " ++
        pathJoin pagesPath relative_path))
    else if pyEndsWith relative_path "__pycache__" then
      .ok st
    else
      let parts := if relative_path = "" then [] else pySplitSlash relative_path
      navUpdate
        (fun cur => e.files.foldlM (processFile loader args e.root relative_path) (cur, st.2))
        st.1 parts

/-- `TinySSGGenerator.search_route`.  The previous `sys.dont_write_bytecode`
is saved, the flag is set for the duration of the walk, and the `finally`
block restores the saved value on every exit path; the walk body itself never
touches the interpreter state (module loading is behind the `loader`
abstraction), so it is a pure computation of either a route tree or the first
raised exception. -/
def search_route (walk : List WalkEntry)
    (loader : String → String → Except PyErr (List PageCls))
    (pagesPath : String) (args : GenArgs) (s : SysState) :
    Except PyErr RTree × SysState :=
  let prev := s.dont_write_bytecode
  let _s1 : SysState := { dont_write_bytecode := true }
  let body : Except PyErr RTree := do
    let st ← walk.foldlM (processEntry loader pagesPath args) (RTree.node [], 0)
    if st.2 = 0 then .error (.tinySSG "No Page classes found.")
    else .ok st.1
  (body, { dont_write_bytecode := prev })

/-! ## Claim-side definitions and concrete instances used by the theorems -/

/-- The basename pipeline of the page branch, stated on the remainder of the
path after the `/\x7boutput\x7d/` prefix: strip one trailing `.html`, then map
an empty or slash-terminated remainder to `index`. -/
def pageBasename (rest : String) : String :=
  let b0 := stripHtmlSuffix rest
  if pyEndsWith b0 "/" || b0 = "" then b0 ++ "index" else b0

/-- Test for the dictionary shape. -/
def isPyDict : PyVal → Bool
  | .vdict _ => true
  | _ => false

/-- Shapes that are neither a mapping, a list, nor a tuple. -/
def scalarShape : PyVal → Bool
  | .vstr _ => true
  | .vint _ => true
  | .vnone => true
  | _ => false

/-- A concrete dev-server state used by the witnesses. -/
def srvDemo : Server :=
  { args := { output := "dist", static := "static", noreload := false, nolog := false }
    route := .node [(.vstr "index", .leaf (.vstr "<html><head></head>x</html>")),
                    (.vstr "sub", .node [(.vstr "index", .leaf (.vstr "s"))])]
    reload := false
    shutdown := false }

/-- A single-record page whose `translate` returns the empty string: the
concrete input on which `create_content` fails. -/
def c1Page : Page :=
  { name := "C1Page"
    query := .ok (.vdict [("title", .vstr "t")])
    template := .ok "x"
    translate := fun _ => .ok (.vstr "") }

/-- A list-mode page whose two records both translate to the empty string. -/
def c1PageList : Page :=
  { name := "C1PageList"
    query := .ok (.vlist [.vdict [("a", .vstr "1")], .vdict []])
    template := .ok "x"
    translate := fun _ => .ok (.vstr "") }

/-- A page whose `query` returns a plain integer; its class name `DemoPage`
does not occur in the raised error message. -/
def c4Page : Page :=
  { name := "DemoPage"
    query := .ok (.vint 3)
    template := .ok "x"
    translate := defaultTranslate }

/-- A page whose `query` returns a 3-tuple. -/
def c4TuplePage : Page :=
  { name := "TuplePage"
    query := .ok (.vtuple [.vnone, .vnone, .vnone])
    template := .ok "x"
    translate := defaultTranslate }

/-- The specification's own example: two records with slug values `a`/`b`. -/
def c6Page : Page :=
  { name := "C6Page"
    query := .ok (.vtuple [.vlist [.vdict [("id", .vstr "a")],
                                   .vdict [("id", .vstr "b")]], .vstr "id"])
    template := .ok "x"
    translate := defaultTranslate }

/-- Two records with the same slug value `a` but different payloads. -/
def c10Page : Page :=
  { name := "C10Page"
    query := .ok (.vtuple [.vlist [.vdict [("id", .vstr "a"), ("v", .vstr "1")],
                                   .vdict [("id", .vstr "a"), ("v", .vstr "2")]],
                           .vstr "id"])
    template := .ok "\x7b\x7bv\x7d\x7d"
    translate := defaultTranslate }

/-! ## Shared lemmas -/

theorem exceptBind_ok (a : α) (f : α → Except PyErr β) :
    (Except.ok a >>= f : Except PyErr β) = f a := rfl

theorem exceptBind_error (e : PyErr) (f : α → Except PyErr β) :
    (Except.error e >>= f : Except PyErr β) = Except.error e := rfl

theorem listIsPrefix_append_self (p r : List Char) : listIsPrefix p (p ++ r) = true := by
  induction p with
  | nil => rfl
  | cons c cs ih => simp [listIsPrefix, ih]

theorem pyLen_append_newline (a : String) : pyLen (a ++ "\n") = pyLen a + 1 := by
  simp [pyLen, String.data_append]

theorem pyDrop_of_append (q rest : String) : pyDrop (q ++ rest) (pyLen q) = rest := by
  show String.mk (((q ++ rest).data).drop q.data.length) = rest
  rw [String.data_append, List.drop_left]

theorem subFuel_no_match (key : List Char) (toks : List ReplTok)
    (fuel : Nat) :
    ∀ s, hasPHAux key s = false → subFuel key toks fuel s = s := by
  induction fuel with
  | zero => intro s _; rfl
  | succ n ih =>
    intro s hs
    cases s with
    | nil => rfl
    | cons c rest =>
      rw [hasPHAux] at hs
      cases hm : matchPH key (c :: rest) with
      | some rem => rw [hm] at hs; simp at hs
      | none =>
        rw [hm] at hs
        simp only [Option.isSome_none, Bool.false_or] at hs
        simp only [subFuel, hm, ih rest hs]

theorem render_variables_cons (src : String) (kv : String × PyVal)
    (rest : List (String × PyVal)) :
    render_variables src (kv :: rest) =
      (pySubKey kv.1 (strPy kv.2) src) >>= fun t => render_variables t rest := by
  simp [render_variables, List.foldlM_cons]

theorem pySubKey_no_placeholder (key repl t : String) (toks : List ReplTok)
    (hp : parseTemplate repl.data = some toks)
    (h : hasPlaceholder key t = false) :
    pySubKey key repl t = .ok t := by
  simp only [pySubKey, hp]
  rw [subFuel_no_match key.data toks _ t.data h]

/-- C3: for a template and a mapping, the substitution engine does not insert
`str(value)` literally: the value is processed as a `re` replacement template,
so backslash sequences are interpreted.  At the failing input — template
`\x7b\x7bk\x7d\x7d`, value the four characters `a`, backslash, `n`, `b` — the
code inserts a real newline (`render_variables`), while literal insertion as
the specification describes it (`render_variables_literal`) keeps the
backslash; the two results differ. -/
theorem c3_substitution_not_literal :
    render_variables "\x7b\x7bk\x7d\x7d" [("k", .vstr "a\\nb")] = .ok "a\nb" ∧
    render_variables_literal "\x7b\x7bk\x7d\x7d" [("k", .vstr "a\\nb")] = "a\\nb" ∧
    ("a\nb" : String) ≠ "a\\nb" :=
  ⟨rfl, rfl, by decide⟩

/-- C7: substitution is idempotent once a pass has produced a string in which
no key of the mapping matches a placeholder any more: if
`render_variables s d = ok t` and no key of `d` has a placeholder occurrence
in `t`, then `render_variables t d = ok t`. -/
theorem c7_substitution_idempotent (s t : String) (d : List (String × PyVal))
    (h1 : render_variables s d = .ok t)
    (h2 : ∀ kv ∈ d, hasPlaceholder kv.1 t = false) :
    render_variables t d = .ok t := by
  induction d generalizing s with
  | nil => rfl
  | cons kv rest ih =>
    rw [render_variables_cons] at h1 ⊢
    cases hps : pySubKey kv.1 (strPy kv.2) s with
    | error e => rw [hps, exceptBind_error] at h1; cases h1
    | ok u =>
      rw [hps, exceptBind_ok] at h1
      have hpt : ∃ toks, parseTemplate (strPy kv.2).data = some toks := by
        unfold pySubKey at hps
        cases hx : parseTemplate (strPy kv.2).data with
        | none => rw [hx] at hps; cases hps
        | some toks => exact ⟨toks, rfl⟩
      obtain ⟨toks, hpt⟩ := hpt
      rw [pySubKey_no_placeholder kv.1 (strPy kv.2) t toks hpt
        (h2 kv (List.mem_cons_self kv rest)), exceptBind_ok]
      exact ih u h1 (fun kv' hkv' => h2 kv' (List.mem_cons_of_mem kv hkv'))

theorem c7_substitution_idempotent_witness :
    render_variables "Hello \x7b\x7bname\x7d\x7d!" [("name", .vstr "World")] =
      .ok "Hello World!" ∧
    render_variables "Hello World!" [("name", .vstr "World")] = .ok "Hello World!" :=
  ⟨rfl,
   c7_substitution_idempotent "Hello \x7b\x7bname\x7d\x7d!" "Hello World!"
     [("name", .vstr "World")] rfl
     (by intro kv hkv; simp only [List.mem_singleton] at hkv; subst hkv; rfl)⟩

/-- C8 (amended): a GET request under the static prefix
`/\x7boutput\x7d/\x7bstatic\x7d/` is rewritten by removing every occurrence of
the substring `/\x7boutput\x7d` from the path — in particular the leading
prefix, but also any later repetition of the output-directory name — and the
result is served as a static file from disk. -/
theorem c8_static_path_rewrite (path : String) (server : Server)
    (hstat : pyStartsWith path
      ("/" ++ server.args.output ++ "/" ++ server.args.static ++ "/") = true)
    (hchange : path ≠ "/change") (hstop : path ≠ "/stop") :
    httpd_get_handler path server =
      (.staticServe (pySubLit ("/" ++ server.args.output) "" path), server) := by
  unfold httpd_get_handler
  rw [if_neg hchange, if_neg hstop, if_pos hstat]

theorem c8_static_path_rewrite_witness :
    httpd_get_handler "/dist/static/css/app.css" srvDemo =
      (.staticServe "/static/css/app.css", srvDemo) :=
  (c8_static_path_rewrite "/dist/static/css/app.css" srvDemo rfl (by decide)
    (by decide)).trans (by rfl)

/-- C8, counterexample to the claim as stated: with output directory `dist`,
the request path `/dist/static/dist/app.css` is rewritten to
`/static/app.css` — the second path segment that repeats the output-directory
name is removed too, not preserved (`/static/dist/app.css`). -/
theorem c8_static_path_counterexample :
    httpd_get_handler "/dist/static/dist/app.css" srvDemo =
      (.staticServe "/static/app.css", srvDemo) ∧
    ("/static/app.css" : String) ≠ "/static/dist/app.css" :=
  ⟨rfl, by decide⟩

/-- C9: `search_route` restores the saved `sys.dont_write_bytecode` value on
every execution path — the walk result is paired with a final interpreter
state equal to the initial one, whether the body produced a route tree or
raised (naming conflict, static-name conflict, no-page-classes, or a loader
exception); and the walk changes no other global state (`SysState` carries
everything the walk touches). -/
theorem c9_dont_write_bytecode_restored (walk : List WalkEntry)
    (loader : String → String → Except PyErr (List PageCls))
    (pagesPath : String) (args : GenArgs) (s : SysState) :
    (search_route walk loader pagesPath args s).2 = s := by
  cases s; rfl

theorem handler_reload_frame (p : String) (s : Server) (hp : p ≠ "/change") :
    ((httpd_get_handler p s).2).reload = s.reload := by
  unfold httpd_get_handler
  rw [if_neg hp]
  repeat' split
  all_goals rfl

theorem serveList_change_false (ps : List String) :
    ∀ (s : Server) (i : Nat), s.reload = false → ps[i]? = some "/change" →
    (serveList s ps)[i]? = some (.ok "application/json" (pyJsonReloadBody false)) := by
  induction ps with
  | nil => intro s i _ hreq; simp at hreq
  | cons p rest ih =>
    intro s i hflag hreq
    cases i with
    | zero =>
      simp only [List.getElem?_cons_zero, Option.some_inj] at hreq
      subst hreq
      simp only [serveList, List.getElem?_cons_zero, Option.some_inj]
      show (httpd_get_handler "/change" s).1 = _
      unfold httpd_get_handler
      rw [if_pos rfl, hflag]
    | succ j =>
      simp only [List.getElem?_cons_succ] at hreq
      simp only [serveList, List.getElem?_cons_succ]
      apply ih _ j _ hreq
      by_cases hp : p = "/change"
      · subst hp
        show ((httpd_get_handler "/change" s).2).reload = false
        unfold httpd_get_handler
        rw [if_pos rfl]
      · rw [handler_reload_frame p s hp, hflag]

theorem serveList_change_protocol (ps : List String) :
    ∀ (s : Server) (i : Nat), s.reload = true → ps[i]? = some "/change" →
    (serveList s ps)[i]? =
      some (.ok "application/json"
        (pyJsonReloadBody ((ps.take i).all (fun q => q != "/change")))) := by
  induction ps with
  | nil => intro s i _ hreq; simp at hreq
  | cons p rest ih =>
    intro s i hflag hreq
    cases i with
    | zero =>
      simp only [List.getElem?_cons_zero, Option.some_inj] at hreq
      subst hreq
      simp only [serveList, List.getElem?_cons_zero, Option.some_inj, List.take_zero,
        List.all_nil]
      show (httpd_get_handler "/change" s).1 = _
      unfold httpd_get_handler
      rw [if_pos rfl, hflag]
    | succ j =>
      simp only [List.getElem?_cons_succ] at hreq
      simp only [serveList, List.getElem?_cons_succ, List.take_succ_cons, List.all_cons]
      by_cases hp : p = "/change"
      · subst hp
        have h2 : ((httpd_get_handler "/change" s).2).reload = false := by
          unfold httpd_get_handler; rw [if_pos rfl]
        rw [serveList_change_false rest _ j h2 hreq]
        simp [bne_self_eq_false]
      · have h2 : ((httpd_get_handler p s).2).reload = true := by
          rw [handler_reload_frame p s hp, hflag]
        rw [ih _ j h2 hreq]
        have : (p != "/change") = true := bne_iff_ne.mpr hp
        rw [this, Bool.true_and]

/-- C2: the `/change` poll.  (1) A `/change` request is answered with the JSON
body `\x7b"reload": <flag>\x7d` for the current flag value, after which the
flag is cleared; (2) no other request path changes the flag; (3) consequently,
over any request sequence served from a state whose flag is set, a `/change`
request is answered `true` exactly when no earlier `/change` request occurred,
and `false` on every later poll. -/
theorem c2_change_poll_protocol (s : Server) (ps : List String) (i : Nat)
    (hflag : s.reload = true) (hreq : ps[i]? = some "/change") :
    httpd_get_handler "/change" s =
      (.ok "application/json" (pyJsonReloadBody s.reload), { s with reload := false }) ∧
    (∀ (p : String) (s' : Server), p ≠ "/change" →
      ((httpd_get_handler p s').2).reload = s'.reload) ∧
    (serveList s ps)[i]? =
      some (.ok "application/json"
        (pyJsonReloadBody ((ps.take i).all (fun q => q != "/change")))) := by
  refine ⟨?_, ?_, serveList_change_protocol ps s i hflag hreq⟩
  · unfold httpd_get_handler; rw [if_pos rfl]
  · intro p s' hp; exact handler_reload_frame p s' hp

theorem c2_change_poll_protocol_witness :
    httpd_get_handler "/change" { srvDemo with reload := true } =
      (.ok "application/json" (pyJsonReloadBody ({ srvDemo with reload := true }).reload),
        { { srvDemo with reload := true } with reload := false }) ∧
    (∀ (p : String) (s' : Server), p ≠ "/change" →
      ((httpd_get_handler p s').2).reload = s'.reload) ∧
    (serveList { srvDemo with reload := true } ["/x", "/change", "/change"])[1]? =
      some (.ok "application/json"
        (pyJsonReloadBody ((["/x", "/change", "/change"].take 1).all
          (fun q => q != "/change")))) :=
  c2_change_poll_protocol { srvDemo with reload := true } ["/x", "/change", "/change"] 1
    rfl rfl

/-- C5: a GET request under `/\x7boutput\x7d/` that is not a static-directory
path (nor `/change` or `/stop`) is answered from the in-memory Content Tree:
the prefix is stripped, one trailing `.html` is stripped, an empty or
slash-terminated remainder becomes `index`, and the result is split on `/`
and walked segment by segment — a missing segment answers `404 Not Found`, a
sub-mapping answers a `301` redirect to the path with `/` appended, and a
string leaf answers `200 text/html` with the watchdog script injected unless
the no-reload option is set. -/
theorem c5_page_route_resolution (server : Server) (rest path : String)
    (hpath : path = "/" ++ server.args.output ++ "/" ++ rest)
    (hstatic : pyStartsWith path
      ("/" ++ server.args.output ++ "/" ++ server.args.static ++ "/") = false)
    (hchange : path ≠ "/change") (hstop : path ≠ "/stop") :
    httpd_get_handler path server =
      (match routeWalk (pySplitSlash (pageBasename rest)) server.route with
       | none => Resp.noOk 404 "Not Found" []
       | some (.node _) => Resp.noOk 301 "" [("Location", path ++ "/")]
       | some (.leaf (.vstr content)) =>
         Resp.ok "text/html"
           (if server.args.noreload then content else injectWatchdog content)
       | some (.leaf _) => Resp.noOk 500 "Internal Server Error" [], server) := by
  subst hpath
  have hout : "/" ++ server.args.output ++ "/" ++ rest ≠ "/" ++ server.args.output := by
    intro h
    have hl := congrArg String.length h
    have h1 : ("/" : String).length = 1 := rfl
    simp only [String.length_append] at hl
    omega
  have hsw : pyStartsWith ("/" ++ server.args.output ++ "/" ++ rest)
      ("/" ++ server.args.output ++ "/") = true := by
    show listIsPrefix _ _ = true
    rw [String.data_append]
    exact listIsPrefix_append_self _ _
  unfold httpd_get_handler
  rw [if_neg hchange, if_neg hstop, if_neg (by simp [hstatic]), if_neg hout, if_pos hsw]
  simp only [pyDrop_of_append, pageBasename]

theorem c5_page_route_resolution_witness :
    httpd_get_handler "/dist/sub" srvDemo =
      (Resp.noOk 301 "" [("Location", "/dist/sub/")], srvDemo) :=
  (c5_page_route_resolution srvDemo "sub" "/dist/sub" rfl rfl (by decide)
    (by decide)).trans rfl

/-! ## Lemmas about the rendering loop -/

theorem toDicts_map (l : List (List (String × PyVal))) :
    toDicts (l.map PyVal.vdict) = .ok l := by
  induction l with
  | nil => rfl
  | cons d rest ih => simp only [List.map_cons, toDicts, ih]; rfl

theorem toDicts_error_of_bad (l : List PyVal) (hbad : ∃ x ∈ l, isPyDict x = false) :
    toDicts l = .error (.tinySSG queryShapeMsg) := by
  induction l with
  | nil => rcases hbad with ⟨x, hx, _⟩; cases hx
  | cons a rest ih =>
    cases a with
    | vdict d =>
      have hb : ∃ x ∈ rest, isPyDict x = false := by
        rcases hbad with ⟨x, hx, hxb⟩
        rcases List.mem_cons.mp hx with h | h
        · subst h; simp [isPyDict] at hxb
        · exact ⟨x, h, hxb⟩
      simp only [toDicts, ih hb]; rfl
    | vstr s => rfl
    | vint n => rfl
    | vnone => rfl
    | vlist l2 => rfl
    | vtuple l2 => rfl

theorem createLoop_translate_empty (page : Page) (tpl : String) (slug : PyVal)
    (htemp : page.template = .ok tpl)
    (htr : ∀ s, page.translate s = .ok (.vstr "")) :
    ∀ (records : List (List (String × PyVal))) (i : Nat) (acc : List (PyVal × String)),
    (∀ d ∈ records, ∃ r, render_variables tpl d = .ok r) →
    createLoop page slug i records acc = .ok acc := by
  intro records
  induction records with
  | nil => intro i acc _; rfl
  | cons d rest ih =>
    intro i acc hre
    obtain ⟨r, hr⟩ := hre d (List.mem_cons_self d rest)
    simp only [createLoop, htemp, exceptBind_ok, hr, htr]
    show createLoop page slug (i + 1) rest acc = .ok acc
    exact ih (i + 1) acc (fun d' hd' => hre d' (List.mem_cons_of_mem d hd'))

/-- C1 (amended): empty-string render results are dropped from the result
mapping.  In multi-record mode a query whose records all translate to the
empty string yields the empty mapping as the generator entry (the entry is
not removed from the Content Tree itself; the file emitter later skips empty
mappings).  In single-page mode, however, `create_content` does not return:
the lone record's empty render is dropped and the subsequent unwrap of key
`'1'` raises `KeyError`. -/
theorem c1_empty_render_results :
    (∀ (page : Page) (tpl : String) (l : List (List (String × PyVal))),
      page.query = .ok (.vlist (l.map PyVal.vdict)) →
      page.template = .ok tpl →
      (∀ s, page.translate s = .ok (.vstr "")) →
      (∀ d ∈ l, ∃ r, render_variables tpl d = .ok r) →
      create_content page = .ok (.multi [])) ∧
    (∀ (page : Page) (tpl : String) (d : List (String × PyVal)),
      page.query = .ok (.vdict d) →
      page.template = .ok tpl →
      (∀ s, page.translate s = .ok (.vstr "")) →
      (∃ r, render_variables tpl d = .ok r) →
      create_content page = .error (.keyError (.vstr "1"))) := by
  constructor
  · intro page tpl l hq htemp htr hre
    cases l with
    | nil => simp only [create_content, hq, exceptBind_ok]; rfl
    | cons d0 rest =>
      simp only [create_content, hq, exceptBind_ok, unpackFetch]
      rw [if_neg (by simp)]
      rw [toDicts_map (d0 :: rest), exceptBind_ok]
      rw [createLoop_translate_empty page tpl .vnone htemp htr (d0 :: rest) 0 [] hre]
      rfl
  · intro page tpl d hq htemp htr hre
    obtain ⟨r, hr⟩ := hre
    simp only [create_content, hq, exceptBind_ok, unpackFetch]
    rw [createLoop_translate_empty page tpl .vnone htemp htr [d] 0 []
      (by intro d' hd'; rw [List.mem_singleton] at hd'; subst hd'; exact ⟨r, hr⟩)]
    rfl

/-- C1, counterexample to the claim as stated: in single-page mode, when the
lone record renders (after substitution, strip-plus-newline, and translate) to
the empty string, `create_content` does fail — the unwrap `result['1']` raises
`KeyError('1')` instead of omitting the entry. -/
theorem c1_single_page_empty_counterexample :
    create_content c1Page = .error (.keyError (.vstr "1")) := rfl

theorem c1_empty_render_results_witness :
    create_content c1PageList = .ok (.multi []) ∧
    create_content c1Page = .error (.keyError (.vstr "1")) :=
  ⟨c1_empty_render_results.1 c1PageList "x" [[("a", .vstr "1")], []] rfl rfl (fun _ => rfl)
    (by
      intro d hd
      rcases List.mem_cons.mp hd with h | h
      · subst h; exact ⟨"x", rfl⟩
      · rw [List.mem_singleton] at h; subst h; exact ⟨"x", rfl⟩),
   c1_empty_render_results.2 c1Page "x" [("title", .vstr "t")] rfl rfl (fun _ => rfl)
     ⟨"x", rfl⟩⟩

/-- C4 (amended): `create_content` accepts exactly a mapping, a list of
mappings (the empty list yields an empty result), or a 2-tuple of data and
slug key.  A scalar value or a list containing a non-mapping raises the
`TinySSGException` with the fixed message `queryShapeMsg` — which does not
name the offending page; a tuple that is not a pair raises the tuple-unpacking
`ValueError` (not the validation error); and exceptions from `query` or from
rendering propagate unchanged. -/
theorem c4_query_shape_validation :
    (∀ (page : Page) (v : PyVal), page.query = .ok v → scalarShape v = true →
      create_content page = .error (.tinySSG queryShapeMsg)) ∧
    (∀ (page : Page) (l : List PyVal), page.query = .ok (.vlist l) →
      (∃ x ∈ l, isPyDict x = false) →
      create_content page = .error (.tinySSG queryShapeMsg)) ∧
    (∀ (page : Page) (es : List PyVal), page.query = .ok (.vtuple es) →
      es.length ≠ 2 → ∃ m, create_content page = .error (.valueError m)) ∧
    (∀ (page : Page), page.query = .ok (.vlist []) →
      create_content page = .ok (.multi [])) ∧
    (∀ (page : Page) (d : List (String × PyVal)) (tpl r : String) (sl : PyVal),
      (page.query = .ok (.vdict d) ∨ page.query = .ok (.vtuple [.vdict d, sl])) →
      page.template = .ok tpl → page.translate = defaultTranslate →
      render_variables tpl d = .ok r →
      create_content page = .ok (.single (pyStrip r ++ "\n"))) ∧
    (∀ (page : Page) (e : PyErr), page.query = .error e →
      create_content page = .error e) ∧
    (∀ (page : Page) (d : List (String × PyVal)) (tpl : String) (e : PyErr),
      page.query = .ok (.vdict d) → page.template = .ok tpl →
      render_variables tpl d = .error e → create_content page = .error e) := by
  refine ⟨?_, ?_, ?_, ?_, ?_, ?_, ?_⟩
  · intro page v hq hv
    cases v with
    | vstr s => simp only [create_content, hq, exceptBind_ok]; rfl
    | vint n => simp only [create_content, hq, exceptBind_ok]; rfl
    | vnone => simp only [create_content, hq, exceptBind_ok]; rfl
    | vlist l => simp [scalarShape] at hv
    | vtuple l => simp [scalarShape] at hv
    | vdict d => simp [scalarShape] at hv
  · intro page l hq hbad
    have hne : l ≠ [] := by
      rcases hbad with ⟨x, hx, _⟩; intro h; subst h; cases hx
    simp only [create_content, hq, exceptBind_ok, unpackFetch]
    rw [if_neg (by simpa using hne)]
    rw [toDicts_error_of_bad l hbad]
    rfl
  · intro page es hq hlen
    match es, hq with
    | [], hq => exact ⟨_, by simp only [create_content, hq, exceptBind_ok]; rfl⟩
    | [a], hq => exact ⟨_, by simp only [create_content, hq, exceptBind_ok]; rfl⟩
    | [a, b], hq => simp at hlen
    | a :: b :: c :: rest, hq =>
      exact ⟨_, by simp only [create_content, hq, exceptBind_ok]; rfl⟩
  · intro page hq
    simp only [create_content, hq, exceptBind_ok]; rfl
  · intro page d tpl r sl hq htemp htr hre
    have hpos : pyLen (pyStrip r ++ "\n") > 0 := by
      rw [pyLen_append_newline]; omega
    have hloop : createLoop page .vnone 0 [d] [] =
        .ok [(.vstr "1", pyStrip r ++ "\n")] := by
      simp only [createLoop, htemp, exceptBind_ok, hre, htr, defaultTranslate]
      rw [if_pos hpos]
      rfl
    rcases hq with hq | hq <;>
      · simp only [create_content, hq, exceptBind_ok, unpackFetch, hloop]
        rfl
  · intro page e hq
    simp only [create_content, hq]; rfl
  · intro page d tpl e hq htemp hre
    simp only [create_content, hq, exceptBind_ok, unpackFetch, createLoop, htemp, hre]
    rfl

/-- C4, counterexample to the claim as stated: the fatal validation error for
an invalid `query` shape carries the fixed message
`The query method must return a dictionary or a list of dictionaries.`, which
does not name the offending page. -/
theorem c4_error_message_counterexample :
    create_content c4Page = .error (.tinySSG queryShapeMsg) ∧
    pyContains queryShapeMsg c4Page.name = false :=
  ⟨rfl, rfl⟩

theorem c4_query_shape_validation_witness :
    create_content c4Page = .error (.tinySSG queryShapeMsg) ∧
    (∃ m, create_content c4TuplePage = .error (.valueError m)) :=
  ⟨c4_query_shape_validation.1 c4Page (.vint 3) rfl rfl,
   c4_query_shape_validation.2.2.1 c4TuplePage [.vnone, .vnone, .vnone] rfl (by decide)⟩

mutual

theorem pyValEq_refl : ∀ (v : PyVal), pyValEq v v = true
  | .vstr s => by simp [pyValEq]
  | .vint n => by simp [pyValEq]
  | .vnone => by rfl
  | .vlist l => by simp [pyValEq, pyValListEq_refl l]
  | .vtuple l => by simp [pyValEq, pyValListEq_refl l]
  | .vdict d => by simp [pyValEq, pyValDictEq_refl d]

theorem pyValListEq_refl : ∀ (l : List PyVal), pyValListEq l l = true
  | [] => rfl
  | v :: vs => by simp [pyValListEq, pyValEq_refl v, pyValListEq_refl vs]

theorem pyValDictEq_refl : ∀ (d : List (String × PyVal)), pyValDictEq d d = true
  | [] => rfl
  | (k, v) :: rest => by simp [pyValDictEq, pyValEq_refl v, pyValDictEq_refl rest]

end

theorem createLoop_render_spec (page : Page) (tpl : String) (slug : PyVal)
    (R : List (String × PyVal) → String)
    (htemp : page.template = .ok tpl) (htr : page.translate = defaultTranslate) :
    ∀ (records : List (List (String × PyVal))) (i : Nat) (acc : List (PyVal × String)),
    (∀ d ∈ records, render_variables tpl d = .ok (R d)) →
    createLoop page slug i records acc =
      .ok ((records.enumFrom i).foldl
        (fun r p => dictInsert r (resolveKey slug p.2 p.1) (pyStrip (R p.2) ++ "\n"))
        acc) := by
  intro records
  induction records with
  | nil => intro i acc _; rfl
  | cons d rest ih =>
    intro i acc hre
    have hr := hre d (List.mem_cons_self d rest)
    have hpos : pyLen (pyStrip (R d) ++ "\n") > 0 := by
      rw [pyLen_append_newline]; omega
    simp only [createLoop, htemp, exceptBind_ok, hr, htr, defaultTranslate]
    rw [if_pos hpos]
    rw [List.enumFrom_cons, List.foldl_cons]
    exact ih (i + 1) _ (fun d' hd' => hre d' (List.mem_cons_of_mem d hd'))

theorem dictInsert_fresh (m : List (PyVal × String)) (k : PyVal) (v : String)
    (h : ∀ kv ∈ m, pyValEq kv.1 k = false) :
    dictInsert m k v = m ++ [(k, v)] := by
  induction m with
  | nil => rfl
  | cons kv rest ih =>
    obtain ⟨a, b⟩ := kv
    have ha := h (a, b) (List.mem_cons_self (a, b) rest)
    simp only [dictInsert, ha]
    simp only [Bool.false_eq_true, if_false, List.cons_append, List.cons.injEq, true_and]
    exact ih (fun kw hkw => h kw (List.mem_cons_of_mem (a, b) hkw))

theorem foldl_dictInsert_fresh :
    ∀ (kvs acc : List (PyVal × String)),
    (∀ kv ∈ kvs, ∀ kw ∈ acc, pyValEq kw.1 kv.1 = false) →
    ((kvs.map Prod.fst).Pairwise (fun a b => pyValEq a b = false)) →
    kvs.foldl (fun r kv => dictInsert r kv.1 kv.2) acc = acc ++ kvs := by
  intro kvs
  induction kvs with
  | nil => intro acc _ _; simp
  | cons kv rest ih =>
    intro acc hfresh hnd
    simp only [List.map_cons, List.pairwise_cons] at hnd
    simp only [List.foldl_cons]
    rw [dictInsert_fresh acc kv.1 kv.2
      (fun kw hkw => hfresh kv (List.mem_cons_self kv rest) kw hkw)]
    rw [ih (acc ++ [(kv.1, kv.2)])
      (by
        intro kv' hkv' kw hkw
        rcases List.mem_append.mp hkw with h | h
        · exact hfresh kv' (List.mem_cons_of_mem kv hkv') kw h
        · rw [List.mem_singleton] at h; subst h
          exact hnd.1 kv'.1 (List.mem_map_of_mem Prod.fst hkv'))
      hnd.2]
    simp

/-- C6: in multi-record mode each record's output key is `record[slugKey]`
when the slug key is present, else the 1-based ordinal string (`resolveKey`);
when the resolved keys are pairwise distinct under Python equality, the result
mapping is exactly the records in order under those keys. -/
theorem c6_multi_record_slug_keys (page : Page) (tpl sk : String)
    (l : List (List (String × PyVal))) (R : List (String × PyVal) → String)
    (hq : page.query = .ok (.vtuple [.vlist (l.map PyVal.vdict), .vstr sk]))
    (htemp : page.template = .ok tpl)
    (htr : page.translate = defaultTranslate)
    (hre : ∀ d ∈ l, render_variables tpl d = .ok (R d))
    (hkeys : (l.enum.map (fun p => resolveKey (.vstr sk) p.2 p.1)).Pairwise
      (fun a b => pyValEq a b = false)) :
    create_content page =
      .ok (.multi (l.enum.map
        (fun p => (resolveKey (.vstr sk) p.2 p.1, pyStrip (R p.2) ++ "\n")))) := by
  cases l with
  | nil => simp only [create_content, hq, exceptBind_ok, unpackFetch]; rfl
  | cons d0 rest =>
    simp only [create_content, hq, exceptBind_ok, unpackFetch]
    rw [if_neg (by simp)]
    rw [toDicts_map, exceptBind_ok]
    rw [createLoop_render_spec page tpl (.vstr sk) R htemp htr (d0 :: rest) 0 [] hre]
    have hfm := List.foldl_map
      (fun p => (resolveKey (.vstr sk) p.2 p.1, pyStrip (R p.2) ++ "\n"))
      (fun r kv => dictInsert r kv.1 kv.2)
      ((d0 :: rest).enumFrom 0) ([] : List (PyVal × String))
    have : ((d0 :: rest).enumFrom 0).foldl
        (fun r p => dictInsert r (resolveKey (.vstr sk) p.2 p.1)
          (pyStrip (R p.2) ++ "\n")) [] =
        (((d0 :: rest).enumFrom 0).map
          (fun p => (resolveKey (.vstr sk) p.2 p.1, pyStrip (R p.2) ++ "\n"))).foldl
          (fun r kv => dictInsert r kv.1 kv.2) [] := by
      rw [hfm]
    rw [this]
    rw [foldl_dictInsert_fresh _ [] (by intro kv _ kw hkw; cases hkw)
      (by
        rw [List.map_map]
        exact hkeys)]
    rfl

theorem c6_multi_record_slug_keys_witness :
    create_content c6Page = .ok (.multi [(.vstr "a", "x\n"), (.vstr "b", "x\n")]) :=
  (c6_multi_record_slug_keys c6Page "x" "id"
    [[("id", .vstr "a")], [("id", .vstr "b")]] (fun _ => "x") rfl rfl rfl
    (by
      intro d hd
      rcases List.mem_cons.mp hd with h | h
      · subst h; rfl
      · rw [List.mem_singleton] at h; subst h; rfl)
    (by
      refine List.Pairwise.cons ?_ (List.Pairwise.cons ?_ List.Pairwise.nil)
      · intro b hb
        have : b = PyVal.vstr "b" := by
          rcases List.mem_map.mp hb with ⟨p, hp, hpe⟩
          rcases List.mem_singleton.mp hp ▸ hpe with h
          exact h.symm ▸ rfl
        subst this; rfl
      · intro b hb
        cases hb)).trans rfl

theorem dictInsert_same (k : PyVal) (v0 v : String) :
    dictInsert [(k, v0)] k v = [(k, v)] := by
  simp [dictInsert, pyValEq_refl k]

theorem foldl_dictInsert_const (k : PyVal) :
    ∀ (kvs : List (PyVal × String)), (∀ kv ∈ kvs, kv.1 = k) →
    ∀ (v0 : String),
    kvs.foldl (fun r kv => dictInsert r kv.1 kv.2) [(k, v0)] =
      [(k, (kvs.map Prod.snd).getLastD v0)] := by
  intro kvs
  induction kvs with
  | nil => intro _ v0; rfl
  | cons kv rest ih =>
    intro hall v0
    simp only [List.foldl_cons, List.map_cons, List.getLastD_cons]
    rw [hall kv (List.mem_cons_self kv rest), dictInsert_same k v0 kv.2]
    exact ih (fun kv' h => hall kv' (List.mem_cons_of_mem kv h)) kv.2

theorem getLastD_map (f : α → β) : ∀ (l : List α) (a : α),
    (l.map f).getLastD (f a) = f (l.getLastD a) := by
  intro l
  induction l with
  | nil => intro a; rfl
  | cons x xs ih => intro a; simp only [List.map_cons, List.getLastD_cons, ih]

/-- C10: when every record of a multi-record query resolves to the same
output key (duplicate slug values, or a slug value colliding with another
record's ordinal), the later records silently overwrite the earlier ones: the
result is a one-entry mapping holding the last record's rendered HTML, with no
error raised. -/
theorem c10_duplicate_keys_last_wins (page : Page) (tpl sk : String)
    (d0 : List (String × PyVal)) (rest : List (List (String × PyVal)))
    (R : List (String × PyVal) → String) (k : PyVal)
    (hq : page.query = .ok (.vtuple [.vlist ((d0 :: rest).map PyVal.vdict), .vstr sk]))
    (htemp : page.template = .ok tpl)
    (htr : page.translate = defaultTranslate)
    (hre : ∀ d ∈ d0 :: rest, render_variables tpl d = .ok (R d))
    (hkeys : ∀ p ∈ (d0 :: rest).enum, resolveKey (.vstr sk) p.2 p.1 = k) :
    create_content page =
      .ok (.multi [(k, pyStrip (R (rest.getLastD d0)) ++ "\n")]) := by
  simp only [create_content, hq, exceptBind_ok, unpackFetch]
  rw [if_neg (by simp)]
  rw [toDicts_map, exceptBind_ok]
  rw [createLoop_render_spec page tpl (.vstr sk) R htemp htr (d0 :: rest) 0 [] hre]
  rw [List.enumFrom_cons, List.foldl_cons]
  have hk0 : resolveKey (.vstr sk) d0 0 = k :=
    hkeys (0, d0) (by rw [List.enum_cons]; exact List.mem_cons_self _ _)
  have hfirst : dictInsert [] (resolveKey (.vstr sk) d0 0) (pyStrip (R d0) ++ "\n") =
      [(k, pyStrip (R d0) ++ "\n")] := by rw [hk0]; rfl
  rw [hfirst]
  have hfm := List.foldl_map
    (fun p => (resolveKey (PyVal.vstr sk) p.2 p.1, pyStrip (R p.2) ++ "\n"))
    (fun r kv => dictInsert r kv.1 kv.2)
    (rest.enumFrom 1) [(k, pyStrip (R d0) ++ "\n")]
  have hstep : (rest.enumFrom 1).foldl
      (fun r p => dictInsert r (resolveKey (PyVal.vstr sk) p.2 p.1)
        (pyStrip (R p.2) ++ "\n")) [(k, pyStrip (R d0) ++ "\n")] =
      ((rest.enumFrom 1).map
        (fun p => (resolveKey (PyVal.vstr sk) p.2 p.1, pyStrip (R p.2) ++ "\n"))).foldl
        (fun r kv => dictInsert r kv.1 kv.2) [(k, pyStrip (R d0) ++ "\n")] := by
    rw [hfm]
  rw [hstep]
  rw [foldl_dictInsert_const k _
    (by
      intro kv hkv
      rcases List.mem_map.mp hkv with ⟨p, hp, hpe⟩
      subst hpe
      exact hkeys p (by rw [List.enum_cons]; exact List.mem_cons_of_mem _ hp))
    (pyStrip (R d0) ++ "\n")]
  rw [List.map_map]
  have hvals : ((rest.enumFrom 1).map
      ((fun kv => Prod.snd kv) ∘
        (fun p => (resolveKey (PyVal.vstr sk) p.2 p.1, pyStrip (R p.2) ++ "\n")))) =
      rest.map (fun d => pyStrip (R d) ++ "\n") := by
    have h1 : ((fun kv : PyVal × String => Prod.snd kv) ∘
        (fun p : Nat × List (String × PyVal) =>
          (resolveKey (PyVal.vstr sk) p.2 p.1, pyStrip (R p.2) ++ "\n"))) =
        (fun d : List (String × PyVal) => pyStrip (R d) ++ "\n") ∘ Prod.snd := rfl
    rw [h1, ← List.map_map]
    rw [List.enumFrom_map_snd]
  rw [hvals]
  rw [getLastD_map (fun d => pyStrip (R d) ++ "\n") rest d0]
  rfl

theorem c10_duplicate_keys_last_wins_witness :
    create_content c10Page = .ok (.multi [(.vstr "a", "2\n")]) :=
  (c10_duplicate_keys_last_wins c10Page "\x7b\x7bv\x7d\x7d" "id"
    [("id", .vstr "a"), ("v", .vstr "1")] [[("id", .vstr "a"), ("v", .vstr "2")]]
    (fun d => match recordGet d "v" with | some (.vstr s) => s | _ => "") (.vstr "a")
    rfl rfl rfl
    (by
      intro d hd
      rcases List.mem_cons.mp hd with h | h
      · subst h; rfl
      · rw [List.mem_singleton] at h; subst h; rfl)
    (by
      intro p hp
      rcases List.mem_cons.mp hp with h | h
      · subst h; rfl
      · rcases List.mem_cons.mp h with h2 | h2
        · subst h2; rfl
        · cases h2)).trans rfl
